import Mathlib

/-!
Verification of the SACO-AI-ASSISTANT repository against its specification.

The repository's `src/` holds the Next.js frontend: the API service layer
(`src/saco-frontend/src/lib/api.ts`), the `useAddressProcessor` hook, the
`AmenitiesBentoGrid` component with its paginated `AmenityCard`, and the main
`AddressProcessor` page.  The Python backend (the orchestration-and-caching
pipeline of `workflow.py` / `cache_service.py`) is named by the README but its
source is not present, so it is modelled from the specification where a claim
depends on it; those definitions carry a `Modelled from the spec:` doc comment.

Numbers are modelled as `Nat`/`Int`, JS strings as `String`, JS `undefined` /
missing optional fields as `Option`, and a function that may `throw` as a
function into `Except`.
-/

namespace Saco

/-! ## Data model of the frontend API layer (`src/lib/api.ts`) -/

/-- Coordinates as declared in `api.ts` (`latitude`, `longitude`, `address`).
Latitude/longitude values play no arithmetic role in the claims; they are
modelled as integers. -/
structure Coordinates where
  latitude : Int
  longitude : Int
  address : String
deriving Repr, DecidableEq

/-- An amenity as declared in `api.ts` (`name`, `amenity_type`, optional
`distance`, optional `coordinates`). -/
structure Amenity where
  name : String
  amenity_type : String
  distance : Option Nat
  coords : Option (Int × Int)
deriving Repr, DecidableEq

/-- The response body of `POST /process-address` as typed in `api.ts`
(`AddressResponse`).  `error` is an optional string (`undefined` ↦ `none`). -/
structure AddressResponse where
  success : Bool
  address : String
  coordinates : Option Coordinates
  amenities : List Amenity
  categorized_amenities : Option (List (String × List Amenity))
  result : Option String
  error : Option String
  radius_used : Nat
deriving Repr, DecidableEq

/-- The outcome of the single `fetch` call issued by
`AddressService.processAddress` / `processAddressWithProgress`: either the
promise rejects (network failure), or a response arrives with its `ok` flag,
HTTP status, and parsed JSON body. -/
inductive FetchOutcome where
  | networkError
  | response (ok : Bool) (status : Nat) (body : AddressResponse)
deriving Repr, DecidableEq

/-- The typed failures `processAddress` can throw: the rejected fetch itself,
`HTTP error! status: ...` on `!response.ok`, and the API-reported error when
`!result.success && result.error`. -/
inductive ApiFailure where
  | network
  | http (status : Nat)
  | api (msg : String)
deriving Repr, DecidableEq

/-- JavaScript truthiness of the optional `error` string: `undefined` and the
empty string are falsy, every other string is truthy. -/
def errTruthy : Option String → Bool
  | none => false
  | some s => !(s == "")

/-- The body of `AddressService.processAddress` (`api.ts` lines 39–68): throw
on `!response.ok`, throw `result.error` when `!result.success && result.error`,
otherwise return the parsed body; a rejected fetch propagates out of the
`catch` (which only logs and rethrows). -/
def processAddress (fetch : FetchOutcome) : Except ApiFailure AddressResponse :=
  match fetch with
  | .networkError => .error .network
  | .response ok status body =>
    if !ok then .error (.http status)
    else if !body.success && errTruthy body.error then
      .error (.api (body.error.getD ""))
    else .ok body

/-- A progress event as published through the `onProgress` callback of
`processAddressWithProgress`: the `step` string and the `message` field of the
data payload. -/
structure ProgressEvent where
  step : String
  message : String
deriving Repr, DecidableEq

/-- The four progress events `processAddressWithProgress` publishes before its
`fetch` call (`api.ts` lines 76–90). -/
def preFetchEvents : List ProgressEvent :=
  [⟨"geocoding", "Finding coordinates..."⟩,
   ⟨"amenities", "Searching for amenities..."⟩,
   ⟨"categorizing", "Categorizing amenities..."⟩,
   ⟨"analyzing", "Generating AI analysis..."⟩]

/-- The body of `AddressService.processAddressWithProgress` (`api.ts` lines
70–126): publish the four staged events, perform the same fetch/validation as
`processAddress`, then publish `complete` and return the body on success, or
publish `error` from the `catch` block and rethrow on any failure.  The value
is the ordered list of published events paired with the returned/thrown
outcome. -/
def processAddressWithProgress (fetch : FetchOutcome) :
    List ProgressEvent × Except ApiFailure AddressResponse :=
  match processAddress fetch with
  | .ok body => (preFetchEvents ++ [⟨"complete", "Complete!"⟩], .ok body)
  | .error e => (preFetchEvents ++ [⟨"error", "Error occurred"⟩], .error e)

/-- A step string is terminal when it is `complete` or `error`. -/
def isTerminalStep (s : String) : Bool :=
  s == "complete" || s == "error"

/-- The step strings `processAddressWithProgress` actually publishes, read off
the string literals of `api.ts` lines 77, 81, 85, 89, 118, 123. -/
def publishedSteps : List String :=
  ["geocoding", "amenities", "categorizing", "analyzing", "complete", "error"]

/-- The stage enumeration named by the specification's Progress Event data
model (§3): `{geocoding, searching, categorizing, summarizing, complete,
failed}`. -/
def specStages : List String :=
  ["geocoding", "searching", "categorizing", "summarizing", "complete", "failed"]

/-! ## Pagination in `AmenityCard` (`amenities-bento-grid.tsx` lines 14–98) -/

/-- `const itemsPerPage = 8` in `AmenityCard`. -/
def itemsPerPage : Nat := 8

/-- `const totalPages = Math.ceil(items.length / itemsPerPage)`. -/
def totalPages (n : Nat) : Nat := (n + itemsPerPage - 1) / itemsPerPage

/-- `items.slice(currentPage * itemsPerPage, (currentPage + 1) * itemsPerPage)`:
the items rendered on a given page. -/
def pageSlice (items : List Amenity) (page : Nat) : List Amenity :=
  (items.drop (page * itemsPerPage)).take itemsPerPage

/-- A click on one of the two pagination buttons of `AmenityCard`. -/
inductive Click where
  | previous
  | next
deriving Repr, DecidableEq

/-- One button click on a card with `n` items, applied to the current page
index.  The page is an integer because JS arithmetic there is on numbers:
`goToPrevious` sets `Math.max(0, prev - 1)` and `goToNext` sets
`Math.min(totalPages - 1, prev + 1)`.  The pagination controls are only
rendered when `totalPages > 1`, and each button is `disabled` at its boundary
(`currentPage === 0`, resp. `currentPage === totalPages - 1`), so a click in
those situations cannot occur and leaves the state unchanged. -/
def clickStep (n : Nat) (page : Int) (c : Click) : Int :=
  if totalPages n ≤ 1 then page
  else
    match c with
    | .previous => if page = 0 then page else max 0 (page - 1)
    | .next =>
        if page = (totalPages n : Int) - 1 then page
        else min ((totalPages n : Int) - 1) (page + 1)

/-! ## The `useAddressProcessor` hook (`useAddressProcessor.ts`) -/

/-- The `ProcessingState` of the hook: `loading`, `result`, `error`,
`currentStep`, `progressMessage`; `null` fields are `none`. -/
structure ProcessingState where
  loading : Bool
  result : Option AddressResponse
  error : Option String
  currentStep : String
  progressMessage : String
deriving Repr, DecidableEq

/-- The initial `useState` value of the hook. -/
def initialState : ProcessingState :=
  ⟨false, none, none, "", ""⟩

/-- The state set at the top of the hook's `processAddress`. -/
def startState : ProcessingState :=
  ⟨true, none, none, "starting", "Starting analysis..."⟩

/-- The functional update performed by the progress callback:
`{...prev, currentStep: step, progressMessage: data?.message || 'Processing...'}`. -/
def progressUpdate (s : ProcessingState) (step : String) (msg : Option String) :
    ProcessingState :=
  { s with currentStep := step,
           progressMessage := if errTruthy msg then msg.getD "" else "Processing..." }

/-- The state set when `processAddressWithProgress` resolves. -/
def successState (r : AddressResponse) : ProcessingState :=
  ⟨false, some r, none, "complete", "Analysis complete!"⟩

/-- The state set in the hook's `catch` block. -/
def failureState (msg : String) : ProcessingState :=
  ⟨false, none, some msg, "error", "Error occurred"⟩

/-- The states the hook can reach: the initial state, and every state obtained
by starting a run, applying a progress update, or finishing with the success
or failure terminal state. -/
inductive HookReachable : ProcessingState → Prop where
  | init : HookReachable initialState
  | start {s : ProcessingState} : HookReachable s → HookReachable startState
  | progress {s : ProcessingState} (step : String) (msg : Option String) :
      HookReachable s → HookReachable (progressUpdate s step msg)
  | success {s : ProcessingState} (r : AddressResponse) :
      HookReachable s → HookReachable (successState r)
  | failure {s : ProcessingState} (msg : String) :
      HookReachable s → HookReachable (failureState msg)

/-! ## The backend pipeline, modelled from the specification

The orchestration-and-caching pipeline (`workflow.py`, `cache_service.py`,
`agents.py`, `categorization_agent.py` in the README's layout) is not present
under `src/`; the definitions below are modelled from spec §3, §4.1–§4.4 and
§8. -/

/-- Modelled from the spec: the Coordinates record of §3
(`latitude`, `longitude`, `resolved_address`), produced by the missing
geocoding agent. -/
structure GeoCoordinates where
  latitude : Int
  longitude : Int
  resolved_address : String
deriving Repr, DecidableEq

/-- Modelled from the spec: the POI record of §3 (`name`, `category_raw`,
`coordinates`), produced by the missing POI search agent. -/
structure POI where
  name : String
  category_raw : String
  lat : Int
  lon : Int
deriving Repr, DecidableEq

/-- Modelled from the spec: the outcome of `GeocodeClient.resolve` (§4.2) as
seen by the orchestrator, after the client's own bounded retries
(`RateLimited` exhausts into `Unavailable`). -/
inductive GeoOutcome where
  | found (c : GeoCoordinates)
  | notFound
  | unavailable
deriving Repr, DecidableEq

/-- Modelled from the spec: the outcome of `POIClient.search` (§4.2) after
client-level retries. -/
inductive PoiOutcome where
  | ok (pois : List POI)
  | unavailable
deriving Repr, DecidableEq

/-- Modelled from the spec: the outcome of `CategorizationClient.classify`
(§4.2). -/
inductive ClassifyOutcome where
  | ok (m : List (String × List POI))
  | unavailable
deriving Repr, DecidableEq

/-- Modelled from the spec: the outcome of `CategorizationClient.summarize`
(§4.2). -/
inductive SummarizeOutcome where
  | ok (s : String)
  | unavailable
deriving Repr, DecidableEq

/-- Modelled from the spec: the three upstream client interfaces the missing
orchestrator consumes (§4.2, §6), injectable for testing, together with the
category filters the orchestrator passes to `POIClient.search` (§4.2's
`category_filters`; the README's configured amenity types), fixed at
construction.  `search` takes coordinates, the radius, and the category
filters. -/
structure Env where
  geocode : String → GeoOutcome
  search : GeoCoordinates → Nat → List String → PoiOutcome
  classify : List POI → ClassifyOutcome
  summarize : GeoCoordinates → List (String × List POI) → SummarizeOutcome
  filters : List String

/-- Modelled from the spec: the Pipeline Result of §3, the unit stored in and
retrieved from the Cache Store. -/
structure PipelineResult where
  coordinates : GeoCoordinates
  categorized : List (String × List POI)
  summary : String
  radius_used : Nat
  cache_hit : Bool
deriving Repr, DecidableEq

/-- Modelled from the spec: the terminal pipeline errors of §7
(`AddressNotResolvable`, `UpstreamUnavailable`); degraded outcomes are not
errors. -/
inductive PipelineError where
  | addressNotResolvable
  | upstreamUnavailable
deriving Repr, DecidableEq

/-- Modelled from the spec: the fixed cache TTL of a committed entry; §9 notes
the source fixes no canonical value, 1 hour is the suggested choice. -/
def TTL : Nat := 3600

/-- Modelled from the spec: a committed Cache Store entry — a Pipeline Result
carrying its expiry instant (§3 Cache Entry). -/
structure CacheEntry where
  value : PipelineResult
  expiry : Nat
deriving Repr, DecidableEq

/-- Modelled from the spec: the Cache Store of §4.1, as an association list
from fingerprint keys to entries. -/
abbrev CacheStore := List (String × CacheEntry)

/-- Modelled from the spec: key normalization of §4.1 — lower-case the address
text and collapse whitespace. -/
def normalizeAddress (s : String) : String :=
  String.intercalate " " ((s.toLower.split Char.isWhitespace).filter (fun w => w != ""))

/-- Modelled from the spec: the cache fingerprint of §3/glossary — the
normalized address combined with the radius value. -/
def fingerprint (address : String) (radius : Nat) : String :=
  normalizeAddress address ++ "|" ++ toString radius

/-- Modelled from the spec: `CacheStore.get` (§4.1) — look the key up and
serve the stored Pipeline Result while the entry has not expired. -/
def cacheGet (c : CacheStore) (now : Nat) (k : String) : Option PipelineResult :=
  match c.find? (fun e => e.1 == k) with
  | some (_, e) => if now < e.expiry then some e.value else none
  | none => none

/-- Modelled from the spec: `CacheStore.set` (§4.1) — commit a value under the
key with the fixed TTL; the newest write shadows older ones. -/
def cacheSet (c : CacheStore) (now : Nat) (k : String) (v : PipelineResult) :
    CacheStore :=
  (k, ⟨v, now + TTL⟩) :: c

/-- Modelled from the spec: the radius invariant of §3/§8 —
`100 ≤ radius_meters ≤ 10000`, enforced by clamping before any upstream
call. -/
def clampRadius (r : Nat) : Nat := max 100 (min 10000 r)

/-- Modelled from the spec: the fixed per-query radius multiplier of §3 —
airports ×5, highways ×2 (also in the repository's API_README: "Airports:
Automatically uses 5x radius", "Highways: Automatically uses 2x radius") —
computed once per query from the category filters, without mutating the
caller-supplied value. -/
def queryMultiplier (filters : List String) : Nat :=
  if filters.contains "airport" then 5
  else if filters.contains "highway" then 2
  else 1

/-- Modelled from the spec: the (possibly category-adjusted) radius of §4.3
step 3 that is transmitted to `POIClient.search` — the clamped base radius
times the per-query category multiplier. -/
def adjustedRadius (r : Nat) (filters : List String) : Nat :=
  r * queryMultiplier filters

/-- Modelled from the spec: the fixed eight-element category enumeration of §3. -/
def CATEGORIES : List String :=
  ["Education", "Healthcare", "Dining", "Banking", "Shopping", "Recreation",
   "Transportation", "Other"]

/-- `true` when the (lower-cased) raw category contains one of the given
keywords as a substring. -/
def containsAny (s : String) (pats : List String) : Bool :=
  pats.any (fun p => (s.splitOn p).length != 1)

/-- Modelled from the spec: the deterministic rule-based fallback classifier
of §4.3 step 4 — match on raw category substrings, defaulting to `Other`;
keyword groups follow the README's amenity listing. -/
def categoryOfLower (r : String) : String :=
  if containsAny r ["school", "university", "college", "kindergarten"] then "Education"
  else if containsAny r ["hospital", "clinic", "pharmacy", "doctor", "dentist"] then "Healthcare"
  else if containsAny r ["restaurant", "cafe", "fast_food", "bar", "food"] then "Dining"
  else if containsAny r ["bank", "atm"] then "Banking"
  else if containsAny r ["supermarket", "mall", "shop", "store"] then "Shopping"
  else if containsAny r ["park", "sport", "playground", "fitness"] then "Recreation"
  else if containsAny r ["fuel", "airport", "highway", "station", "bus"] then "Transportation"
  else "Other"

/-- The category assigned to a raw category string by the fallback classifier. -/
def categoryOf (raw : String) : String := categoryOfLower raw.toLower

/-- The POIs of a list falling under one fixed category. -/
def bucket (pois : List POI) (c : String) : List POI :=
  pois.filter (fun p => categoryOf p.category_raw == c)

/-- Modelled from the spec: the Categorized Result (§3) produced by the
rule-based fallback — each fixed category paired with its POIs, keeping only
categories that received at least one POI. -/
def categorize (pois : List POI) : List (String × List POI) :=
  CATEGORIES.filterMap (fun c =>
    if (bucket pois c).isEmpty then none else some (c, bucket pois c))

/-- A POI appears under key `c` of a categorized map. -/
def inCategory (m : List (String × List POI)) (c : String) (p : POI) : Prop :=
  ∃ l, (c, l) ∈ m ∧ p ∈ l

/-- Modelled from the spec: the fixed fallback summary of §4.3 step 5, used
when `CategorizationClient.summarize` fails. -/
def fallbackSummary : String := "Summary unavailable."

/-- Everything one `Orchestrator.run` produces or touches: the typed result,
the ordered progress stages published, the cache after the run, the number of
upstream client calls issued, and the radius values transmitted to the POI
search service. -/
structure RunOutput where
  result : Except PipelineError PipelineResult
  events : List String
  cache : CacheStore
  upstreamCalls : Nat
  searchRadii : List Nat

/-- Modelled from the spec: `Orchestrator.run` (§4.3, §6), the missing
`workflow.py` entry point.  Cache hit: serve immediately with a single
`complete` event marked `cache_hit = true` and zero upstream calls.  Miss:
geocode (aborting on `NotFound`/`Unavailable` with a `failed` event last),
search with the clamped, category-adjusted radius (§4.3 step 3; aborting on
`Unavailable`), fall back to the rule-based classifier when `classify` fails,
fall back to the fixed summary when `summarize` fails, then commit the
assembled result (its `radius_used` the clamped caller value, which the
adjustment does not mutate) and emit `complete`. -/
def run (env : Env) (cache : CacheStore) (now : Nat) (address : String)
    (radius : Nat) : RunOutput :=
  let key := fingerprint address radius
  match cacheGet cache now key with
  | some res =>
    ⟨.ok { res with cache_hit := true }, ["complete"], cache, 0, []⟩
  | none =>
    let r := clampRadius radius
    let ra := adjustedRadius r env.filters
    match env.geocode address with
    | .notFound =>
      ⟨.error .addressNotResolvable, ["geocoding", "failed"], cache, 1, []⟩
    | .unavailable =>
      ⟨.error .upstreamUnavailable, ["geocoding", "failed"], cache, 1, []⟩
    | .found coords =>
      match env.search coords ra env.filters with
      | .unavailable =>
        ⟨.error .upstreamUnavailable, ["geocoding", "searching", "failed"],
         cache, 2, [ra]⟩
      | .ok pois =>
        let categorized :=
          match env.classify pois with
          | .ok m => m
          | .unavailable => categorize pois
        let summary :=
          match env.summarize coords categorized with
          | .ok s => s
          | .unavailable => fallbackSummary
        let res : PipelineResult := ⟨coords, categorized, summary, r, false⟩
        ⟨.ok res,
         ["geocoding", "searching", "categorizing", "summarizing", "complete"],
         cacheSet cache now key res, 4, [ra]⟩

/-- A small injectable environment for concrete runs: a fixed geocoder, a POI
search returning the given list, no category filters, and unavailable
categorization/summary clients (exercising both fallbacks). -/
def demoEnv (pois : List POI) : Env where
  geocode := fun _ => .found ⟨0, 0, "X"⟩
  search := fun _ _ _ => .ok pois
  classify := fun _ => .unavailable
  summarize := fun _ _ => .unavailable
  filters := []

/-- An injectable environment whose categorization client succeeds, returning
the rule-based categorization (so it conforms to the §3 Categorized Result
contract), and whose summary client succeeds as well. -/
def demoEnvAI (pois : List POI) : Env where
  geocode := fun _ => .found ⟨0, 0, "X"⟩
  search := fun _ _ _ => .ok pois
  classify := fun ps => .ok (categorize ps)
  summarize := fun _ _ => .ok "ok"
  filters := []

/-- An injectable environment that searches the airports category: its filter
triggers the ×5 radius adjustment of §3. -/
def demoEnvAirport : Env where
  geocode := fun _ => .found ⟨0, 0, "X"⟩
  search := fun _ _ _ => .ok []
  classify := fun _ => .unavailable
  summarize := fun _ _ => .unavailable
  filters := ["airport"]

end Saco

/-! ## Helper lemmas -/

/-- One click keeps the page index within `[0, max 0 (totalPages n - 1)]`. -/
theorem Saco.clickStep_bounds (n : Nat) (page : Int) (c : Saco.Click)
    (h0 : 0 ≤ page) (h1 : page ≤ max 0 ((Saco.totalPages n : Int) - 1)) :
    0 ≤ Saco.clickStep n page c ∧
      Saco.clickStep n page c ≤ max 0 ((Saco.totalPages n : Int) - 1) := by
  unfold Saco.clickStep
  split
  · exact ⟨h0, h1⟩
  · rename_i htp
    cases c with
    | previous =>
      dsimp only
      split
      · exact ⟨h0, h1⟩
      · omega
    | next =>
      dsimp only
      split
      · exact ⟨h0, h1⟩
      · omega

/-- Any sequence of clicks starting inside the valid page range stays inside
it. -/
theorem Saco.foldl_clickStep_bounds (n : Nat) (clicks : List Saco.Click) :
    ∀ page : Int, 0 ≤ page → page ≤ max 0 ((Saco.totalPages n : Int) - 1) →
      0 ≤ clicks.foldl (Saco.clickStep n) page ∧
        clicks.foldl (Saco.clickStep n) page ≤ max 0 ((Saco.totalPages n : Int) - 1) := by
  induction clicks with
  | nil => intro page h0 h1; exact ⟨h0, h1⟩
  | cons c rest ih =>
    intro page h0 h1
    have hb := Saco.clickStep_bounds n page c h0 h1
    exact ih (Saco.clickStep n page c) hb.1 hb.2

/-- Concatenating the first `k` pages of `m`-sized slices of a list yields its
first `k * m` elements. -/
theorem Saco.flatten_slices (α : Type) (m : Nat) (l : List α) (k : Nat) :
    ((List.range k).map (fun p => (l.drop (p * m)).take m)).flatten = l.take (k * m) := by
  induction k with
  | zero => simp
  | succ k ih =>
    rw [List.range_succ, List.map_append, List.flatten_append, ih]
    simp only [List.map_cons, List.map_nil, List.flatten_cons, List.flatten_nil,
      List.append_nil]
    rw [← List.take_add, Nat.succ_mul]

/-- The page count covers the whole list: `totalPages n * 8 ≥ n`. -/
theorem Saco.totalPages_mul_ge (n : Nat) : n ≤ Saco.totalPages n * Saco.itemsPerPage := by
  unfold Saco.totalPages Saco.itemsPerPage
  have h := Nat.div_add_mod (n + 8 - 1) 8
  have h2 : (n + 8 - 1) % 8 < 8 := Nat.mod_lt _ (by norm_num)
  omega


/-! ## Theorems -/

/-- **C8.** `AddressService.processAddress` returns the parsed response exactly
when the HTTP response is ok and it is not the case that the body has
`success = false` together with a truthy (non-empty, present) `error` string;
in every other case it throws.  In particular a body with `success = false`
but a missing or empty `error` field is returned as a success. -/
theorem C8_processAddress_ok_iff (f : Saco.FetchOutcome) (b : Saco.AddressResponse) :
    Saco.processAddress f = .ok b ↔
      ∃ st, f = .response true st b ∧
        (b.success = true ∨ Saco.errTruthy b.error = false) := by
  constructor
  · intro h
    match f with
    | .networkError => simp [Saco.processAddress] at h
    | .response ok status body =>
      by_cases hok : ok
      · subst hok
        by_cases hs : body.success
        · have hb : body = b := by simpa [Saco.processAddress, hs] using h
          subst hb
          exact ⟨status, rfl, Or.inl hs⟩
        · simp only [Bool.not_eq_true] at hs
          by_cases he : Saco.errTruthy body.error
          · exfalso
            simp [Saco.processAddress, hs, he] at h
          · simp only [Bool.not_eq_true] at he
            have hb : body = b := by simpa [Saco.processAddress, hs, he] using h
            subst hb
            exact ⟨status, rfl, Or.inr he⟩
      · exfalso
        simp only [Bool.not_eq_true] at hok
        subst hok
        simp [Saco.processAddress] at h
  · rintro ⟨st, rfl, hcond⟩
    rcases hcond with hs | he
    · simp [Saco.processAddress, hs]
    · simp [Saco.processAddress, he]

/-- **C2.** Every call to `processAddressWithProgress` publishes exactly one
terminal progress event (`complete` on success, `error` on failure), and that
event is the last one published for the run. -/
theorem C2_one_terminal_event_last (f : Saco.FetchOutcome) :
    let out := Saco.processAddressWithProgress f
    ((out.1.filter (fun e => Saco.isTerminalStep e.step)).length = 1) ∧
    (∃ t, out.1.getLast? = some t ∧ Saco.isTerminalStep t.step = true) ∧
    (∀ b, out.2 = .ok b → out.1.getLast? = some ⟨"complete", "Complete!"⟩) ∧
    (∀ e, out.2 = .error e → out.1.getLast? = some ⟨"error", "Error occurred"⟩) := by
  match h : Saco.processAddress f with
  | .ok body =>
    simp only [Saco.processAddressWithProgress, h]
    refine ⟨by decide, ⟨⟨"complete", "Complete!"⟩, by decide, by decide⟩, ?_, ?_⟩
    · intro b _; decide
    · intro e he; simp at he
  | .error err =>
    simp only [Saco.processAddressWithProgress, h]
    refine ⟨by decide, ⟨⟨"error", "Error occurred"⟩, by decide, by decide⟩, ?_, ?_⟩
    · intro b hb; simp at hb
    · intro e _; decide

/-- **C6 counterexample.** On a successful run the code publishes a progress
event with step `"amenities"`, which is not in the specification's stage
enumeration `{geocoding, searching, categorizing, summarizing, complete,
failed}`: the claim is false as stated. -/
theorem C6_counterexample :
    ∃ e ∈ (Saco.processAddressWithProgress
        (.response true 200 ⟨true, "a", none, [], none, none, none, 1000⟩)).1,
      ¬ e.step ∈ Saco.specStages := by
  decide

/-- **C6 (amended).** Every progress event published by
`processAddressWithProgress` carries a step drawn from the closed enumeration
`{geocoding, amenities, categorizing, analyzing, complete, error}`; no step
value outside this enumeration is ever published. -/
theorem C6_amended_published_steps (f : Saco.FetchOutcome) :
    ∀ e ∈ (Saco.processAddressWithProgress f).1, e.step ∈ Saco.publishedSteps := by
  match h : Saco.processAddress f with
  | .ok body =>
    simp only [Saco.processAddressWithProgress, h]
    decide
  | .error err =>
    simp only [Saco.processAddressWithProgress, h]
    decide

/-- Witness for C6 (amended): on a failed fetch, the `"amenities"` event is
among the published events and its step is in the code's enumeration. -/
theorem C6_amended_published_steps_witness :
    (⟨"amenities", "Searching for amenities..."⟩ : Saco.ProgressEvent) ∈
        (Saco.processAddressWithProgress .networkError).1 ∧
      "amenities" ∈ Saco.publishedSteps :=
  ⟨by decide,
   C6_amended_published_steps .networkError
     ⟨"amenities", "Searching for amenities..."⟩ (by decide)⟩

/-- **C9.** For a category card with `items.length` items, any sequence of
Previous/Next clicks starting from page 0 keeps the page index within
`[0, max 0 (ceil(n/8) - 1)]`, and concatenating the 8-item page slices over
all pages in order yields exactly the original item list: pagination drops and
duplicates nothing. -/
theorem C9_pagination_safe (items : List Saco.Amenity) (clicks : List Saco.Click) :
    (0 ≤ clicks.foldl (Saco.clickStep items.length) 0 ∧
      clicks.foldl (Saco.clickStep items.length) 0 ≤
        max 0 ((Saco.totalPages items.length : Int) - 1)) ∧
    ((List.range (Saco.totalPages items.length)).map (Saco.pageSlice items)).flatten
      = items := by
  constructor
  · exact Saco.foldl_clickStep_bounds items.length clicks 0 le_rfl (le_max_left _ _)
  · unfold Saco.pageSlice
    rw [Saco.flatten_slices]
    exact List.take_of_length_le (Saco.totalPages_mul_ge items.length)

/-- **C10.** In every state reachable through the `useAddressProcessor` hook,
`result` and `error` are never both non-null, and whenever `loading` is true
both `result` and `error` are null. -/
theorem C10_hook_state_invariant (s : Saco.ProcessingState)
    (h : Saco.HookReachable s) :
    (s.result = none ∨ s.error = none) ∧
      (s.loading = true → s.result = none ∧ s.error = none) := by
  induction h with
  | init => exact ⟨Or.inl rfl, fun _ => ⟨rfl, rfl⟩⟩
  | start _ => exact ⟨Or.inl rfl, fun _ => ⟨rfl, rfl⟩⟩
  | progress step msg _ ih => exact ih
  | success r _ => exact ⟨Or.inr rfl, fun hl => by simp [Saco.successState] at hl⟩
  | failure msg _ => exact ⟨Or.inl rfl, fun hl => by simp [Saco.failureState] at hl⟩

/-- Witness for C10: the invariant holds at the concrete mid-run state reached
by starting a run and receiving the `geocoding` progress update. -/
theorem C10_hook_state_invariant_witness :
    ((Saco.progressUpdate Saco.startState "geocoding"
        (some "Finding coordinates...")).result = none ∨
      (Saco.progressUpdate Saco.startState "geocoding"
        (some "Finding coordinates...")).error = none) ∧
    ((Saco.progressUpdate Saco.startState "geocoding"
        (some "Finding coordinates...")).loading = true →
      (Saco.progressUpdate Saco.startState "geocoding"
        (some "Finding coordinates...")).result = none ∧
      (Saco.progressUpdate Saco.startState "geocoding"
        (some "Finding coordinates...")).error = none) :=
  C10_hook_state_invariant _
    (Saco.HookReachable.progress "geocoding" (some "Finding coordinates...")
      (Saco.HookReachable.start Saco.HookReachable.init))

/-- The fallback classifier always lands in the fixed category enumeration. -/
theorem Saco.categoryOfLower_mem (r : String) :
    Saco.categoryOfLower r ∈ Saco.CATEGORIES := by
  unfold Saco.categoryOfLower
  split_ifs <;> decide

/-- `categoryOf` always lands in the fixed category enumeration. -/
theorem Saco.categoryOf_mem (raw : String) :
    Saco.categoryOf raw ∈ Saco.CATEGORIES :=
  Saco.categoryOfLower_mem raw.toLower

/-- Characterization of the entries of the fallback categorization: the key is
one of the fixed categories and the value is its non-empty bucket. -/
theorem Saco.mem_categorize (pois : List Saco.POI) (c : String) (l : List Saco.POI) :
    (c, l) ∈ Saco.categorize pois ↔
      c ∈ Saco.CATEGORIES ∧ l = Saco.bucket pois c ∧ Saco.bucket pois c ≠ [] := by
  unfold Saco.categorize
  rw [List.mem_filterMap]
  constructor
  · rintro ⟨a, ha, hfa⟩
    by_cases hb : (Saco.bucket pois a).isEmpty
    · simp [hb] at hfa
    · simp only [hb, Bool.false_eq_true, if_false, Option.some.injEq,
        Prod.mk.injEq] at hfa
      obtain ⟨rfl, rfl⟩ := hfa
      refine ⟨ha, rfl, ?_⟩
      simpa [List.isEmpty_iff] using hb
  · rintro ⟨hc, rfl, hne⟩
    refine ⟨c, hc, ?_⟩
    simp [List.isEmpty_iff, hne]

/-- A POI appears under key `c` of the fallback categorization exactly when it
is one of the classified POIs and the classifier assigns it `c`. -/
theorem Saco.inCategory_categorize (pois : List Saco.POI) (p : Saco.POI) (c : String) :
    Saco.inCategory (Saco.categorize pois) c p ↔
      p ∈ pois ∧ Saco.categoryOf p.category_raw = c := by
  constructor
  · rintro ⟨l, hm, hp⟩
    rw [Saco.mem_categorize] at hm
    obtain ⟨hc, rfl, hne⟩ := hm
    rw [Saco.bucket, List.mem_filter] at hp
    exact ⟨hp.1, by simpa using hp.2⟩
  · rintro ⟨hpp, hcat⟩
    have hpb : p ∈ Saco.bucket pois c := by
      rw [Saco.bucket, List.mem_filter]
      exact ⟨hpp, by simp [hcat]⟩
    refine ⟨Saco.bucket pois c, ?_, hpb⟩
    rw [Saco.mem_categorize]
    exact ⟨hcat ▸ Saco.categoryOf_mem p.category_raw, rfl, List.ne_nil_of_mem hpb⟩

/-- Every key of the fallback categorization is one of the fixed categories. -/
theorem Saco.categorize_keys (pois : List Saco.POI) (k : String)
    (hk : k ∈ (Saco.categorize pois).map Prod.fst) : k ∈ Saco.CATEGORIES := by
  rw [List.mem_map] at hk
  obtain ⟨⟨c, l⟩, hm, rfl⟩ := hk
  exact ((Saco.mem_categorize pois c l).mp hm).1

/-- Every classified POI appears under exactly one category of the fallback
categorization. -/
theorem Saco.categorize_partition (pois : List Saco.POI) (p : Saco.POI)
    (hp : p ∈ pois) : ∃! c, Saco.inCategory (Saco.categorize pois) c p := by
  refine ⟨Saco.categoryOf p.category_raw, ?_, ?_⟩
  · exact (Saco.inCategory_categorize pois p _).mpr ⟨hp, rfl⟩
  · intro c hc
    exact ((Saco.inCategory_categorize pois p c).mp hc).2.symm

/-- The clamped radius always satisfies the invariant of §3. -/
theorem Saco.clampRadius_bounds (r : Nat) :
    100 ≤ Saco.clampRadius r ∧ Saco.clampRadius r ≤ 10000 := by
  unfold Saco.clampRadius
  omega

/-- The per-query category multiplier is one of ×1, ×2, ×5. -/
theorem Saco.queryMultiplier_bounds (filters : List String) :
    1 ≤ Saco.queryMultiplier filters ∧ Saco.queryMultiplier filters ≤ 5 := by
  unfold Saco.queryMultiplier
  split_ifs <;> omega

/-- The category-adjusted clamped radius lies in `[100, 50000]`. -/
theorem Saco.adjustedRadius_bounds (r : Nat) (filters : List String) :
    100 ≤ Saco.adjustedRadius (Saco.clampRadius r) filters ∧
      Saco.adjustedRadius (Saco.clampRadius r) filters ≤ 50000 := by
  have h1 := Saco.clampRadius_bounds r
  have h2 := Saco.queryMultiplier_bounds filters
  unfold Saco.adjustedRadius
  constructor
  · calc 100 = 100 * 1 := by norm_num
      _ ≤ Saco.clampRadius r * Saco.queryMultiplier filters :=
        Nat.mul_le_mul h1.1 h2.1
  · calc Saco.clampRadius r * Saco.queryMultiplier filters ≤ 10000 * 5 :=
        Nat.mul_le_mul h1.2 h2.2
      _ = 50000 := by norm_num

/-- The fallback categorization of no POIs has no entries. -/
theorem Saco.categorize_nil : Saco.categorize [] = [] := rfl

/-- **C3 counterexample.** The claim's bound on transmitted radii is false:
with the airports category filter, a run whose caller-supplied radius is 3000
— already inside `[100, 10000]` — transmits the ×5-adjusted radius 15000 to
the POI search service (§3/§4.3 step 3; API_README: airports automatically
use 5x radius), which exceeds 10000. -/
theorem C3_counterexample :
    15000 ∈ (Saco.run Saco.demoEnvAirport [] 0 "A" 3000).searchRadii ∧
      ¬ 15000 ≤ 10000 := by
  decide

/-- **C3 (amended).** The caller-supplied radius is clamped into
`[100, 10000]` before any upstream call is issued; every radius value
transmitted to the POI search service is that clamped base radius times the
fixed per-query category multiplier (×5 airports, ×2 highways, ×1 otherwise),
and hence lies in `[100, 50000]`. -/
theorem C3_radius_clamped_upstream (env : Saco.Env) (cache : Saco.CacheStore)
    (now : Nat) (a : String) (r : Nat) :
    ∀ ρ ∈ (Saco.run env cache now a r).searchRadii,
      ρ = Saco.adjustedRadius (Saco.clampRadius r) env.filters ∧
      (100 ≤ ρ ∧ ρ ≤ 50000) := by
  intro ρ hρ
  cases hc : Saco.cacheGet cache now (Saco.fingerprint a r) with
  | some res => simp [Saco.run, hc] at hρ
  | none =>
    cases hg : env.geocode a with
    | notFound => simp [Saco.run, hc, hg] at hρ
    | unavailable => simp [Saco.run, hc, hg] at hρ
    | found coords =>
      cases hs : env.search coords
          (Saco.adjustedRadius (Saco.clampRadius r) env.filters) env.filters with
      | unavailable =>
        simp [Saco.run, hc, hg, hs] at hρ
        subst hρ
        exact ⟨rfl, Saco.adjustedRadius_bounds r env.filters⟩
      | ok pois =>
        simp [Saco.run, hc, hg, hs] at hρ
        subst hρ
        exact ⟨rfl, Saco.adjustedRadius_bounds r env.filters⟩

/-- Witness for C3 (amended): a run called with radius 60000 under the
airports filter clamps the base to 10000 and transmits exactly 50000. -/
theorem C3_radius_clamped_upstream_witness :
    50000 ∈ (Saco.run Saco.demoEnvAirport [] 0 "B" 60000).searchRadii ∧
      (50000 = Saco.adjustedRadius (Saco.clampRadius 60000) Saco.demoEnvAirport.filters ∧
       (100 ≤ 50000 ∧ 50000 ≤ 50000)) :=
  ⟨by decide,
   C3_radius_clamped_upstream Saco.demoEnvAirport [] 0 "B" 60000 50000 (by decide)⟩

/-- **C4.** `run` surfaces terminal failures as a typed result value, never as
an unqualified exception: its result is a pipeline error exactly for the two
terminal conditions of §4.3 — geocoding `NotFound` (as
`addressNotResolvable`) and upstream unavailability of geocoding or search
(as `upstreamUnavailable`) — and every other input yields a typed success. -/
theorem C4_terminal_failure_typed (env : Saco.Env) (cache : Saco.CacheStore)
    (now : Nat) (a : String) (r : Nat) (e : Saco.PipelineError) :
    (Saco.run env cache now a r).result = .error e ↔
      Saco.cacheGet cache now (Saco.fingerprint a r) = none ∧
      ((env.geocode a = .notFound ∧ e = .addressNotResolvable) ∨
       (env.geocode a = .unavailable ∧ e = .upstreamUnavailable) ∨
       (∃ c, env.geocode a = .found c ∧
          env.search c (Saco.adjustedRadius (Saco.clampRadius r) env.filters)
            env.filters = .unavailable ∧
          e = .upstreamUnavailable)) := by
  cases hc : Saco.cacheGet cache now (Saco.fingerprint a r) with
  | some res => simp [Saco.run, hc]
  | none =>
    cases hg : env.geocode a with
    | notFound => simp [Saco.run, hc, hg, eq_comm]
    | unavailable => simp [Saco.run, hc, hg, eq_comm]
    | found coords =>
      cases hs : env.search coords
          (Saco.adjustedRadius (Saco.clampRadius r) env.filters) env.filters with
      | unavailable => simp [Saco.run, hc, hg, hs, eq_comm]
      | ok pois => simp [Saco.run, hc, hg, hs]

/-- **C5.** When the POI search stage returns an empty list, `run` still
returns a successful Pipeline Result whose categorized map has no entries, and
the run ends with `complete`, not a failure. -/
theorem C5_empty_search_success (env : Saco.Env) (cache : Saco.CacheStore)
    (now : Nat) (a : String) (r : Nat) (coords : Saco.GeoCoordinates)
    (hmiss : Saco.cacheGet cache now (Saco.fingerprint a r) = none)
    (hg : env.geocode a = .found coords)
    (hs : env.search coords (Saco.adjustedRadius (Saco.clampRadius r) env.filters)
        env.filters = .ok [])
    (hcl : ∀ m, env.classify [] = .ok m → m = []) :
    ∃ res, (Saco.run env cache now a r).result = .ok res ∧
      res.categorized = [] ∧
      (Saco.run env cache now a r).events.getLast? = some "complete" := by
  have hcatz : (match env.classify [] with
      | .ok m => m
      | .unavailable => Saco.categorize []) = [] := by
    cases hcls : env.classify [] with
    | ok m => exact hcl m hcls
    | unavailable => rfl
  have hrun : (Saco.run env cache now a r).result =
      .ok ⟨coords, [],
        (match env.summarize coords [] with
         | .ok s => s
         | .unavailable => Saco.fallbackSummary), Saco.clampRadius r, false⟩ := by
    simp only [Saco.run, hmiss, hg, hs]
    rw [hcatz]
  refine ⟨_, hrun, rfl, ?_⟩
  have hev : (Saco.run env cache now a r).events =
      ["geocoding", "searching", "categorizing", "summarizing", "complete"] := by
    simp only [Saco.run, hmiss, hg, hs]
  rw [hev]
  rfl

/-- Witness for C5: a concrete run whose POI search finds nothing succeeds
with an empty categorized map. -/
theorem C5_empty_search_success_witness :
    (Saco.cacheGet [] 0 (Saco.fingerprint "A" 1000) = none ∧
     (Saco.demoEnv []).geocode "A" = .found ⟨0, 0, "X"⟩ ∧
     (Saco.demoEnv []).search ⟨0, 0, "X"⟩
        (Saco.adjustedRadius (Saco.clampRadius 1000) (Saco.demoEnv []).filters)
        (Saco.demoEnv []).filters = .ok []) ∧
    ∃ res, (Saco.run (Saco.demoEnv []) [] 0 "A" 1000).result = .ok res ∧
      res.categorized = [] ∧
      (Saco.run (Saco.demoEnv []) [] 0 "A" 1000).events.getLast? = some "complete" :=
  ⟨⟨rfl, rfl, rfl⟩,
   C5_empty_search_success (Saco.demoEnv []) [] 0 "A" 1000 ⟨0, 0, "X"⟩ rfl rfl rfl
     (fun _ h => nomatch h)⟩

/-- **C7.** On every successful run — whether categorization comes from the
`CategorizationClient` (constrained by the §3 Categorized Result contract it
must satisfy: keys drawn from the fixed enumeration, every input POI under
exactly one of them) or from the rule-based fallback — every key of the
categorized map of the returned Pipeline Result belongs to the fixed
eight-element enumeration, and every POI returned by search appears under
exactly one category. -/
theorem C7_categorized_partition (env : Saco.Env) (cache : Saco.CacheStore)
    (now : Nat) (a : String) (r : Nat) (coords : Saco.GeoCoordinates)
    (pois : List Saco.POI)
    (hmiss : Saco.cacheGet cache now (Saco.fingerprint a r) = none)
    (hg : env.geocode a = .found coords)
    (hs : env.search coords (Saco.adjustedRadius (Saco.clampRadius r) env.filters)
        env.filters = .ok pois)
    (hcl : ∀ m, env.classify pois = .ok m →
        (∀ k ∈ m.map Prod.fst, k ∈ Saco.CATEGORIES) ∧
        (∀ p ∈ pois, ∃! c, Saco.inCategory m c p)) :
    ∃ res, (Saco.run env cache now a r).result = .ok res ∧
      (∀ k ∈ res.categorized.map Prod.fst, k ∈ Saco.CATEGORIES) ∧
      (∀ p ∈ pois, ∃! c, Saco.inCategory res.categorized c p) := by
  cases hcls : env.classify pois with
  | ok m =>
    have hrun : (Saco.run env cache now a r).result =
        .ok ⟨coords, m,
          (match env.summarize coords m with
           | .ok s => s
           | .unavailable => Saco.fallbackSummary), Saco.clampRadius r, false⟩ := by
      simp only [Saco.run, hmiss, hg, hs, hcls]
    exact ⟨_, hrun, (hcl m hcls).1, (hcl m hcls).2⟩
  | unavailable =>
    have hrun : (Saco.run env cache now a r).result =
        .ok ⟨coords, Saco.categorize pois,
          (match env.summarize coords (Saco.categorize pois) with
           | .ok s => s
           | .unavailable => Saco.fallbackSummary), Saco.clampRadius r, false⟩ := by
      simp only [Saco.run, hmiss, hg, hs, hcls]
    refine ⟨_, hrun, ?_, ?_⟩
    · intro k hk
      exact Saco.categorize_keys pois k hk
    · intro p hp
      exact Saco.categorize_partition pois p hp

/-- Witness for C7: a concrete run over one government-typed POI whose
categorization client succeeds, yielding exactly one fixed category. -/
theorem C7_categorized_partition_witness :
    (Saco.cacheGet [] 0 (Saco.fingerprint "A" 1000) = none ∧
     (Saco.demoEnvAI [⟨"White House", "government", 0, 0⟩]).geocode "A" = .found ⟨0, 0, "X"⟩ ∧
     (Saco.demoEnvAI [⟨"White House", "government", 0, 0⟩]).search ⟨0, 0, "X"⟩
        (Saco.adjustedRadius (Saco.clampRadius 1000)
          (Saco.demoEnvAI [⟨"White House", "government", 0, 0⟩]).filters)
        (Saco.demoEnvAI [⟨"White House", "government", 0, 0⟩]).filters
        = .ok [⟨"White House", "government", 0, 0⟩]) ∧
    ∃ res,
      (Saco.run (Saco.demoEnvAI [⟨"White House", "government", 0, 0⟩]) [] 0 "A" 1000).result
          = .ok res ∧
      (∀ k ∈ res.categorized.map Prod.fst, k ∈ Saco.CATEGORIES) ∧
      (∀ p ∈ [(⟨"White House", "government", 0, 0⟩ : Saco.POI)],
        ∃! c, Saco.inCategory res.categorized c p) :=
  ⟨⟨rfl, rfl, rfl⟩,
   C7_categorized_partition (Saco.demoEnvAI [⟨"White House", "government", 0, 0⟩])
     [] 0 "A" 1000 ⟨0, 0, "X"⟩ [⟨"White House", "government", 0, 0⟩] rfl rfl rfl
     (fun m h => by
       injection h with h2
       subst h2
       exact ⟨fun k hk => Saco.categorize_keys _ k hk,
              fun p hp => Saco.categorize_partition _ p hp⟩)⟩

/-- **C1.** After a first successful (cache-missing) `run`, a second `run`
within the TTL window for the same normalized address and radius returns a
result with `cache_hit = true`, publishes only the single `complete` progress
event, and issues zero upstream calls. -/
theorem C1_cache_hit_second_run (env env' : Saco.Env) (cache : Saco.CacheStore)
    (now now' : Nat) (a a' : String) (r r' : Nat) (res : Saco.PipelineResult)
    (hmiss : Saco.cacheGet cache now (Saco.fingerprint a r) = none)
    (hok : (Saco.run env cache now a r).result = .ok res)
    (hnorm : Saco.normalizeAddress a' = Saco.normalizeAddress a)
    (hr : r' = r)
    (httl : now' < now + Saco.TTL) :
    (Saco.run env' (Saco.run env cache now a r).cache now' a' r').events = ["complete"] ∧
    (Saco.run env' (Saco.run env cache now a r).cache now' a' r').upstreamCalls = 0 ∧
    ∃ res', (Saco.run env' (Saco.run env cache now a r).cache now' a' r').result
        = .ok res' ∧ res'.cache_hit = true := by
  have hkey : Saco.fingerprint a' r' = Saco.fingerprint a r := by
    simp [Saco.fingerprint, hnorm, hr]
  cases hg : env.geocode a with
  | notFound => simp [Saco.run, hmiss, hg] at hok
  | unavailable => simp [Saco.run, hmiss, hg] at hok
  | found coords =>
    cases hs : env.search coords
        (Saco.adjustedRadius (Saco.clampRadius r) env.filters) env.filters with
    | unavailable => simp [Saco.run, hmiss, hg, hs] at hok
    | ok pois =>
      simp only [Saco.run, hmiss, hg, hs, Except.ok.injEq] at hok
      have hcache : (Saco.run env cache now a r).cache =
          Saco.cacheSet cache now (Saco.fingerprint a r) res := by
        simp only [Saco.run, hmiss, hg, hs]
        rw [hok]
      rw [hcache]
      have hget : Saco.cacheGet (Saco.cacheSet cache now (Saco.fingerprint a r) res)
          now' (Saco.fingerprint a' r') = some res := by
        rw [hkey]
        simp [Saco.cacheGet, Saco.cacheSet, httl]
      refine ⟨?_, ?_, ?_⟩
      · simp [Saco.run, hget]
      · simp [Saco.run, hget]
      · exact ⟨{ res with cache_hit := true }, by simp [Saco.run, hget], rfl⟩

/-- Witness for C1: a concrete first run commits its result, and a second run
ten seconds later on the same fingerprint is served from the cache. -/
theorem C1_cache_hit_second_run_witness :
    (Saco.cacheGet [] 0 (Saco.fingerprint "A" 1000) = none ∧
     (Saco.run (Saco.demoEnv []) [] 0 "A" 1000).result =
       .ok ⟨⟨0, 0, "X"⟩, [], Saco.fallbackSummary, 1000, false⟩ ∧
     (10 : Nat) < 0 + Saco.TTL) ∧
    ((Saco.run (Saco.demoEnv []) (Saco.run (Saco.demoEnv []) [] 0 "A" 1000).cache
        10 "A" 1000).events = ["complete"] ∧
     (Saco.run (Saco.demoEnv []) (Saco.run (Saco.demoEnv []) [] 0 "A" 1000).cache
        10 "A" 1000).upstreamCalls = 0 ∧
     ∃ res', (Saco.run (Saco.demoEnv []) (Saco.run (Saco.demoEnv []) [] 0 "A" 1000).cache
        10 "A" 1000).result = .ok res' ∧ res'.cache_hit = true) :=
  ⟨⟨rfl, rfl, by norm_num [Saco.TTL]⟩,
   C1_cache_hit_second_run (Saco.demoEnv []) (Saco.demoEnv []) [] 0 10 "A" "A" 1000 1000
     ⟨⟨0, 0, "X"⟩, [], Saco.fallbackSummary, 1000, false⟩ rfl rfl rfl rfl
     (by norm_num [Saco.TTL])⟩
